import Mathlib

/-!
Shallow embedding of `cpp/source/base/Configuration.cpp` from the
rocketmq-clients repository: the `Configuration` value type and its
fluent `ConfigurationBuilder`.

Modelling conventions:
* `std::string` is `String`; `std::chrono::milliseconds` is `Int`
  (the signed tick count); `bool` is `Bool`.
* `std::shared_ptr<CredentialsProvider>` is `Option CredentialsProviderId`,
  where a `CredentialsProviderId` stands for the address of the pointee.
  `none` is the null handle; equality of identifiers is pointer identity,
  so a handle that is stored or moved but never cloned keeps the same
  identifier.
* `build()` executes `return std::move(configuration_);`.  Moving a
  `std::shared_ptr` is guaranteed to leave the source empty; moving the
  trivially copyable timeout and flag copies them; a moved-from
  `std::string` is left in a valid but unspecified state, which the
  embedding represents by two universally quantified residue strings
  passed to `build`.
* C++ object identity (`return *this;`) is modelled by a heap of
  builders indexed by address.
-/

/-- Identity of a `CredentialsProvider` object: the address of the pointee
of the shared handle. -/
abbrev CredentialsProviderId := Nat

/-- The five fields of class `Configuration` (member usage is visible in
`Configuration.cpp`; the declarations live in `rocketmq/Configuration.h`). -/
structure Configuration where
  endpoints_ : String
  resource_namespace_ : String
  credentials_provider_ : Option CredentialsProviderId
  request_timeout_ : Int
  tls_ : Bool
deriving DecidableEq

/-- Modelled from the spec: the in-class member initializers of
`Configuration` live in the missing header `rocketmq/Configuration.h`.
The spec gives empty strings for endpoints and namespace, an absent
credentials provider, an implementation-defined sane request timeout of a
few seconds (taken here as 3000 ms), and an implementation-defined TLS
flag (taken here as `true`). -/
def Configuration.default : Configuration :=
  { endpoints_ := ""
    resource_namespace_ := ""
    credentials_provider_ := none
    request_timeout_ := 3000
    tls_ := true }

/-- Class `ConfigurationBuilder`: holds exactly one in-progress
`Configuration`. -/
structure ConfigurationBuilder where
  configuration_ : Configuration
deriving DecidableEq

/-- C++ `Configuration::newBuilder` returns `{}`: a value-initialized
builder whose member `configuration_` is initialized by the member
initializers of the header. -/
def Configuration.newBuilder : ConfigurationBuilder :=
  { configuration_ := Configuration.default }

/-- C++ `ConfigurationBuilder::withEndpoints`: assigns the argument to
`configuration_.endpoints_` and returns `*this` (the updated builder
state; identity is handled by the heap model below). -/
def ConfigurationBuilder.withEndpoints (b : ConfigurationBuilder) (endpoints : String) :
    ConfigurationBuilder :=
  { b with configuration_ := { b.configuration_ with endpoints_ := endpoints } }

/-- C++ `ConfigurationBuilder::withNamespace`: assigns the argument to
`configuration_.resource_namespace_` and returns `*this`. -/
def ConfigurationBuilder.withNamespace (b : ConfigurationBuilder) (resource_namespace : String) :
    ConfigurationBuilder :=
  { b with configuration_ := { b.configuration_ with resource_namespace_ := resource_namespace } }

/-- C++ `ConfigurationBuilder::withCredentialsProvider`: moves the shared
handle into `configuration_.credentials_provider_` and returns `*this`.
The move transfers the handle unchanged; the pointee is not cloned, so
the stored identifier is the identifier of the argument. -/
def ConfigurationBuilder.withCredentialsProvider (b : ConfigurationBuilder)
    (provider : Option CredentialsProviderId) : ConfigurationBuilder :=
  { b with configuration_ := { b.configuration_ with credentials_provider_ := provider } }

/-- C++ `ConfigurationBuilder::withRequestTimeout`: assigns the duration to
`configuration_.request_timeout_` and returns `*this`. -/
def ConfigurationBuilder.withRequestTimeout (b : ConfigurationBuilder) (request_timeout : Int) :
    ConfigurationBuilder :=
  { b with configuration_ := { b.configuration_ with request_timeout_ := request_timeout } }

/-- C++ `ConfigurationBuilder::withSsl`: assigns the flag to
`configuration_.tls_` and returns `*this`. -/
def ConfigurationBuilder.withSsl (b : ConfigurationBuilder) (with_ssl : Bool) :
    ConfigurationBuilder :=
  { b with configuration_ := { b.configuration_ with tls_ := with_ssl } }

/-- C++ `ConfigurationBuilder::build` executes
`return std::move(configuration_);`: the accumulated configuration is
moved out and the member is left in the moved-from state.  The shared
handle of the member is guaranteed empty, the trivially copyable timeout
and flag keep their values, and the two strings are valid but
unspecified, represented by the residues `r1` and `r2`. -/
def ConfigurationBuilder.build (b : ConfigurationBuilder) (r1 r2 : String) :
    Configuration × ConfigurationBuilder :=
  (b.configuration_,
   { configuration_ :=
     { endpoints_ := r1
       resource_namespace_ := r2
       credentials_provider_ := none
       request_timeout_ := b.configuration_.request_timeout_
       tls_ := b.configuration_.tls_ } })

/-- One call to one of the five fluent setters, with its argument. -/
inductive SetterCall where
  | withEndpoints (endpoints : String)
  | withNamespace (resource_namespace : String)
  | withCredentialsProvider (provider : Option CredentialsProviderId)
  | withRequestTimeout (request_timeout : Int)
  | withSsl (with_ssl : Bool)
deriving DecidableEq

/-- Dispatch of one setter call to the corresponding member function. -/
def ConfigurationBuilder.applySetter (b : ConfigurationBuilder) : SetterCall → ConfigurationBuilder
  | .withEndpoints e => b.withEndpoints e
  | .withNamespace n => b.withNamespace n
  | .withCredentialsProvider p => b.withCredentialsProvider p
  | .withRequestTimeout t => b.withRequestTimeout t
  | .withSsl s => b.withSsl s

/-- A chained sequence of setter calls on one builder, in caller order. -/
def applySetters (b : ConfigurationBuilder) : List SetterCall → ConfigurationBuilder
  | [] => b
  | c :: cs => applySetters (b.applySetter c) cs

/-- The Configuration obtained from a fresh builder by a sequence of
setter calls followed by one `build()` (with moved-from residues). -/
def buildFromCalls (calls : List SetterCall) (r1 r2 : String) : Configuration :=
  ((applySetters Configuration.newBuilder calls).build r1 r2).1

/-- Claim C4: for every credentials-provider handle `p`, calling
`withCredentialsProvider(p)` then `build()` yields a Configuration whose
credentials-provider reference is the same logical provider `p`: the
same shared handle is stored and transferred, never cloned. -/
theorem credentials_provider_identity_preserved (b : ConfigurationBuilder)
    (p : Option CredentialsProviderId) (r1 r2 : String) :
    ((b.withCredentialsProvider p).build r1 r2).1.credentials_provider_ = p := rfl

/-- Claim C5: no operation of this core can fail.  Every setter stores any
argument unconditionally (arbitrary strings, any duration including zero
or negative, any provider handle), and for every input the whole
pipeline of `newBuilder`, setters and `build` returns a result. -/
theorem no_operation_fails (b : ConfigurationBuilder) (e n : String)
    (p : Option CredentialsProviderId) (t : Int) (s : Bool)
    (calls : List SetterCall) (r1 r2 : String) :
    (b.withEndpoints e).configuration_.endpoints_ = e ∧
    (b.withNamespace n).configuration_.resource_namespace_ = n ∧
    (b.withCredentialsProvider p).configuration_.credentials_provider_ = p ∧
    (b.withRequestTimeout t).configuration_.request_timeout_ = t ∧
    (b.withSsl s).configuration_.tls_ = s ∧
    ∃ result : Configuration × ConfigurationBuilder,
      (applySetters Configuration.newBuilder calls).build r1 r2 = result :=
  ⟨rfl, rfl, rfl, rfl, rfl, ⟨_, rfl⟩⟩

/-- Claim C3: a repeated call to the same setter overwrites the earlier
value with no accumulation, merging, or error (last call wins), and in
particular `withEndpoints("a")` then `withEndpoints("b")` then `build()`
yields endpoints `"b"`. -/
theorem repeated_setter_overwrites (b : ConfigurationBuilder)
    (e1 e2 n1 n2 : String) (p1 p2 : Option CredentialsProviderId)
    (t1 t2 : Int) (s1 s2 : Bool) (r1 r2 : String) :
    (b.withEndpoints e1).withEndpoints e2 = b.withEndpoints e2 ∧
    (b.withNamespace n1).withNamespace n2 = b.withNamespace n2 ∧
    (b.withCredentialsProvider p1).withCredentialsProvider p2 = b.withCredentialsProvider p2 ∧
    (b.withRequestTimeout t1).withRequestTimeout t2 = b.withRequestTimeout t2 ∧
    (b.withSsl s1).withSsl s2 = b.withSsl s2 ∧
    (((Configuration.newBuilder.withEndpoints "a").withEndpoints "b").build r1 r2).1.endpoints_
      = "b" := by
  rcases b with ⟨⟨be, bn, bp, bt, bs⟩⟩
  exact ⟨rfl, rfl, rfl, rfl, rfl, rfl⟩

/-- Claim C9: each setter writes exactly one field of the in-progress
Configuration: for every builder state and every single setter call, the
other four fields of the internal Configuration are unchanged. -/
theorem setter_writes_exactly_one_field (b : ConfigurationBuilder) (e n : String)
    (p : Option CredentialsProviderId) (t : Int) (s : Bool) :
    ((b.withEndpoints e).configuration_.resource_namespace_ = b.configuration_.resource_namespace_ ∧
     (b.withEndpoints e).configuration_.credentials_provider_ = b.configuration_.credentials_provider_ ∧
     (b.withEndpoints e).configuration_.request_timeout_ = b.configuration_.request_timeout_ ∧
     (b.withEndpoints e).configuration_.tls_ = b.configuration_.tls_) ∧
    ((b.withNamespace n).configuration_.endpoints_ = b.configuration_.endpoints_ ∧
     (b.withNamespace n).configuration_.credentials_provider_ = b.configuration_.credentials_provider_ ∧
     (b.withNamespace n).configuration_.request_timeout_ = b.configuration_.request_timeout_ ∧
     (b.withNamespace n).configuration_.tls_ = b.configuration_.tls_) ∧
    ((b.withCredentialsProvider p).configuration_.endpoints_ = b.configuration_.endpoints_ ∧
     (b.withCredentialsProvider p).configuration_.resource_namespace_ = b.configuration_.resource_namespace_ ∧
     (b.withCredentialsProvider p).configuration_.request_timeout_ = b.configuration_.request_timeout_ ∧
     (b.withCredentialsProvider p).configuration_.tls_ = b.configuration_.tls_) ∧
    ((b.withRequestTimeout t).configuration_.endpoints_ = b.configuration_.endpoints_ ∧
     (b.withRequestTimeout t).configuration_.resource_namespace_ = b.configuration_.resource_namespace_ ∧
     (b.withRequestTimeout t).configuration_.credentials_provider_ = b.configuration_.credentials_provider_ ∧
     (b.withRequestTimeout t).configuration_.tls_ = b.configuration_.tls_) ∧
    ((b.withSsl s).configuration_.endpoints_ = b.configuration_.endpoints_ ∧
     (b.withSsl s).configuration_.resource_namespace_ = b.configuration_.resource_namespace_ ∧
     (b.withSsl s).configuration_.credentials_provider_ = b.configuration_.credentials_provider_ ∧
     (b.withSsl s).configuration_.request_timeout_ = b.configuration_.request_timeout_) :=
  ⟨⟨rfl, rfl, rfl, rfl⟩, ⟨rfl, rfl, rfl, rfl⟩, ⟨rfl, rfl, rfl, rfl⟩,
   ⟨rfl, rfl, rfl, rfl⟩, ⟨rfl, rfl, rfl, rfl⟩⟩

/-- Claim C10: after one `build()` the shared credentials handle of the
builder has been transferred out and is null, so a second `build()` on
the same builder returns a Configuration with an absent credentials
provider regardless of any provider set before the first `build()`,
while its request timeout and TLS fields still equal those of the result
of the first `build()` (moving the Configuration nulls the shared handle
but copies the scalar fields). -/
theorem second_build_provider_absent_scalars_copied (b : ConfigurationBuilder)
    (p : Option CredentialsProviderId) (r1 r2 r3 r4 : String) :
    ((((b.withCredentialsProvider p).build r1 r2).2.build r3 r4).1.credentials_provider_
       = none) ∧
    ((((b.withCredentialsProvider p).build r1 r2).2.build r3 r4).1.request_timeout_
       = ((b.withCredentialsProvider p).build r1 r2).1.request_timeout_) ∧
    ((((b.withCredentialsProvider p).build r1 r2).2.build r3 r4).1.tls_
       = ((b.withCredentialsProvider p).build r1 r2).1.tls_) :=
  ⟨rfl, rfl, rfl⟩

/-- The argument of the last `withEndpoints` call in a sequence, if any. -/
def lastEndpoints : List SetterCall → Option String
  | [] => none
  | c :: cs =>
    match lastEndpoints cs with
    | some e => some e
    | none => match c with | .withEndpoints e => some e | _ => none

/-- The argument of the last `withNamespace` call in a sequence, if any. -/
def lastNamespace : List SetterCall → Option String
  | [] => none
  | c :: cs =>
    match lastNamespace cs with
    | some n => some n
    | none => match c with | .withNamespace n => some n | _ => none

/-- The argument of the last `withCredentialsProvider` call in a sequence,
if any. -/
def lastProvider : List SetterCall → Option (Option CredentialsProviderId)
  | [] => none
  | c :: cs =>
    match lastProvider cs with
    | some p => some p
    | none => match c with | .withCredentialsProvider p => some p | _ => none

/-- The argument of the last `withRequestTimeout` call in a sequence, if
any. -/
def lastTimeout : List SetterCall → Option Int
  | [] => none
  | c :: cs =>
    match lastTimeout cs with
    | some t => some t
    | none => match c with | .withRequestTimeout t => some t | _ => none

/-- The argument of the last `withSsl` call in a sequence, if any. -/
def lastTls : List SetterCall → Option Bool
  | [] => none
  | c :: cs =>
    match lastTls cs with
    | some s => some s
    | none => match c with | .withSsl s => some s | _ => none

lemma applySetters_endpoints_eq (cs : List SetterCall) :
    ∀ b : ConfigurationBuilder,
      (applySetters b cs).configuration_.endpoints_ =
        (lastEndpoints cs).getD b.configuration_.endpoints_ := by
  induction cs with
  | nil => intro b; rfl
  | cons c cs ih =>
    intro b
    show (applySetters (b.applySetter c) cs).configuration_.endpoints_ = _
    rw [ih]
    cases hl : lastEndpoints cs with
    | some e => simp [lastEndpoints, hl]
    | none =>
      cases c <;>
        simp [lastEndpoints, hl, ConfigurationBuilder.applySetter,
          ConfigurationBuilder.withEndpoints, ConfigurationBuilder.withNamespace,
          ConfigurationBuilder.withCredentialsProvider,
          ConfigurationBuilder.withRequestTimeout, ConfigurationBuilder.withSsl]

lemma applySetters_namespace_eq (cs : List SetterCall) :
    ∀ b : ConfigurationBuilder,
      (applySetters b cs).configuration_.resource_namespace_ =
        (lastNamespace cs).getD b.configuration_.resource_namespace_ := by
  induction cs with
  | nil => intro b; rfl
  | cons c cs ih =>
    intro b
    show (applySetters (b.applySetter c) cs).configuration_.resource_namespace_ = _
    rw [ih]
    cases hl : lastNamespace cs with
    | some n => simp [lastNamespace, hl]
    | none =>
      cases c <;>
        simp [lastNamespace, hl, ConfigurationBuilder.applySetter,
          ConfigurationBuilder.withEndpoints, ConfigurationBuilder.withNamespace,
          ConfigurationBuilder.withCredentialsProvider,
          ConfigurationBuilder.withRequestTimeout, ConfigurationBuilder.withSsl]

lemma applySetters_provider_eq (cs : List SetterCall) :
    ∀ b : ConfigurationBuilder,
      (applySetters b cs).configuration_.credentials_provider_ =
        (lastProvider cs).getD b.configuration_.credentials_provider_ := by
  induction cs with
  | nil => intro b; rfl
  | cons c cs ih =>
    intro b
    show (applySetters (b.applySetter c) cs).configuration_.credentials_provider_ = _
    rw [ih]
    cases hl : lastProvider cs with
    | some p => simp [lastProvider, hl]
    | none =>
      cases c <;>
        simp [lastProvider, hl, ConfigurationBuilder.applySetter,
          ConfigurationBuilder.withEndpoints, ConfigurationBuilder.withNamespace,
          ConfigurationBuilder.withCredentialsProvider,
          ConfigurationBuilder.withRequestTimeout, ConfigurationBuilder.withSsl]

lemma applySetters_timeout_eq (cs : List SetterCall) :
    ∀ b : ConfigurationBuilder,
      (applySetters b cs).configuration_.request_timeout_ =
        (lastTimeout cs).getD b.configuration_.request_timeout_ := by
  induction cs with
  | nil => intro b; rfl
  | cons c cs ih =>
    intro b
    show (applySetters (b.applySetter c) cs).configuration_.request_timeout_ = _
    rw [ih]
    cases hl : lastTimeout cs with
    | some t => simp [lastTimeout, hl]
    | none =>
      cases c <;>
        simp [lastTimeout, hl, ConfigurationBuilder.applySetter,
          ConfigurationBuilder.withEndpoints, ConfigurationBuilder.withNamespace,
          ConfigurationBuilder.withCredentialsProvider,
          ConfigurationBuilder.withRequestTimeout, ConfigurationBuilder.withSsl]

lemma applySetters_tls_eq (cs : List SetterCall) :
    ∀ b : ConfigurationBuilder,
      (applySetters b cs).configuration_.tls_ =
        (lastTls cs).getD b.configuration_.tls_ := by
  induction cs with
  | nil => intro b; rfl
  | cons c cs ih =>
    intro b
    show (applySetters (b.applySetter c) cs).configuration_.tls_ = _
    rw [ih]
    cases hl : lastTls cs with
    | some s => simp [lastTls, hl]
    | none =>
      cases c <;>
        simp [lastTls, hl, ConfigurationBuilder.applySetter,
          ConfigurationBuilder.withEndpoints, ConfigurationBuilder.withNamespace,
          ConfigurationBuilder.withCredentialsProvider,
          ConfigurationBuilder.withRequestTimeout, ConfigurationBuilder.withSsl]

/-- Claim C1: for every sequence of setter calls on one builder followed
by a single `build()`, each of the five fields of the resulting
Configuration equals the argument passed to the last setter call for
that field before `build()`. -/
theorem last_setter_call_wins_each_field (calls : List SetterCall) (r1 r2 : String) :
    (∀ e, lastEndpoints calls = some e → (buildFromCalls calls r1 r2).endpoints_ = e) ∧
    (∀ n, lastNamespace calls = some n → (buildFromCalls calls r1 r2).resource_namespace_ = n) ∧
    (∀ p, lastProvider calls = some p → (buildFromCalls calls r1 r2).credentials_provider_ = p) ∧
    (∀ t, lastTimeout calls = some t → (buildFromCalls calls r1 r2).request_timeout_ = t) ∧
    (∀ s, lastTls calls = some s → (buildFromCalls calls r1 r2).tls_ = s) := by
  refine ⟨?_, ?_, ?_, ?_, ?_⟩ <;> intro v hv
  · simp [buildFromCalls, ConfigurationBuilder.build, applySetters_endpoints_eq, hv]
  · simp [buildFromCalls, ConfigurationBuilder.build, applySetters_namespace_eq, hv]
  · simp [buildFromCalls, ConfigurationBuilder.build, applySetters_provider_eq, hv]
  · simp [buildFromCalls, ConfigurationBuilder.build, applySetters_timeout_eq, hv]
  · simp [buildFromCalls, ConfigurationBuilder.build, applySetters_tls_eq, hv]

/-- Concrete setter sequence exercising every field, with a repeated
endpoints call. -/
def sampleCalls : List SetterCall :=
  [.withEndpoints "a", .withEndpoints "b", .withNamespace "ns",
   .withCredentialsProvider (some 7), .withRequestTimeout (-5), .withSsl false]

/-- Witness for claim C1 at a concrete sequence of setter calls. -/
theorem last_setter_call_wins_each_field_witness :
    (buildFromCalls sampleCalls "x" "y").endpoints_ = "b" ∧
    (buildFromCalls sampleCalls "x" "y").resource_namespace_ = "ns" ∧
    (buildFromCalls sampleCalls "x" "y").credentials_provider_ = some 7 ∧
    (buildFromCalls sampleCalls "x" "y").request_timeout_ = -5 ∧
    (buildFromCalls sampleCalls "x" "y").tls_ = false :=
  ⟨(last_setter_call_wins_each_field sampleCalls "x" "y").1 "b" rfl,
   (last_setter_call_wins_each_field sampleCalls "x" "y").2.1 "ns" rfl,
   (last_setter_call_wins_each_field sampleCalls "x" "y").2.2.1 (some 7) rfl,
   (last_setter_call_wins_each_field sampleCalls "x" "y").2.2.2.1 (-5) rfl,
   (last_setter_call_wins_each_field sampleCalls "x" "y").2.2.2.2 false rfl⟩

/-- Claim C2: every field never explicitly set holds its documented
default after `build()` (empty strings for endpoints and namespace,
absent credentials provider, the default timeout, the default TLS flag);
in particular a fresh builder built with no setters yields a
Configuration with every field at its default. -/
theorem unset_fields_default_after_build (calls : List SetterCall) (r1 r2 : String) :
    (lastEndpoints calls = none → (buildFromCalls calls r1 r2).endpoints_ = "") ∧
    (lastNamespace calls = none → (buildFromCalls calls r1 r2).resource_namespace_ = "") ∧
    (lastProvider calls = none → (buildFromCalls calls r1 r2).credentials_provider_ = none) ∧
    (lastTimeout calls = none →
      (buildFromCalls calls r1 r2).request_timeout_ = Configuration.default.request_timeout_) ∧
    (lastTls calls = none → (buildFromCalls calls r1 r2).tls_ = Configuration.default.tls_) ∧
    buildFromCalls [] r1 r2 = Configuration.default := by
  refine ⟨?_, ?_, ?_, ?_, ?_, rfl⟩ <;> intro hv
  · simp [buildFromCalls, ConfigurationBuilder.build, applySetters_endpoints_eq, hv,
      Configuration.newBuilder, Configuration.default]
  · simp [buildFromCalls, ConfigurationBuilder.build, applySetters_namespace_eq, hv,
      Configuration.newBuilder, Configuration.default]
  · simp [buildFromCalls, ConfigurationBuilder.build, applySetters_provider_eq, hv,
      Configuration.newBuilder, Configuration.default]
  · simp [buildFromCalls, ConfigurationBuilder.build, applySetters_timeout_eq, hv,
      Configuration.newBuilder, Configuration.default]
  · simp [buildFromCalls, ConfigurationBuilder.build, applySetters_tls_eq, hv,
      Configuration.newBuilder, Configuration.default]

/-- Witness for claim C2 at the empty sequence of setter calls. -/
theorem unset_fields_default_after_build_witness :
    (buildFromCalls [] "x" "y").endpoints_ = "" ∧
    (buildFromCalls [] "x" "y").resource_namespace_ = "" ∧
    (buildFromCalls [] "x" "y").credentials_provider_ = none ∧
    (buildFromCalls [] "x" "y").request_timeout_ = Configuration.default.request_timeout_ ∧
    (buildFromCalls [] "x" "y").tls_ = Configuration.default.tls_ :=
  ⟨(unset_fields_default_after_build [] "x" "y").1 rfl,
   (unset_fields_default_after_build [] "x" "y").2.1 rfl,
   (unset_fields_default_after_build [] "x" "y").2.2.1 rfl,
   (unset_fields_default_after_build [] "x" "y").2.2.2.1 rfl,
   (unset_fields_default_after_build [] "x" "y").2.2.2.2.1 rfl⟩

/-- A heap of builder objects indexed by address, modelling C++ object
identity for references returned by the setters. -/
def BuilderHeap := Nat → ConfigurationBuilder

/-- Store a builder state at one address of the heap. -/
def updateHeap (h : BuilderHeap) (a : Nat) (b : ConfigurationBuilder) : BuilderHeap :=
  fun x => if x = a then b else h x

/-- Heap-level `withEndpoints` on the builder object at address `this`:
mutates that object in place and returns `*this`, the address of the
very builder the call was invoked on. -/
def withEndpointsAt (h : BuilderHeap) (this : Nat) (endpoints : String) : Nat × BuilderHeap :=
  (this, updateHeap h this ((h this).withEndpoints endpoints))

/-- Heap-level `withNamespace`: mutates the object at `this` and returns
`*this`. -/
def withNamespaceAt (h : BuilderHeap) (this : Nat) (resource_namespace : String) :
    Nat × BuilderHeap :=
  (this, updateHeap h this ((h this).withNamespace resource_namespace))

/-- Heap-level `withCredentialsProvider`: mutates the object at `this` and
returns `*this`. -/
def withCredentialsProviderAt (h : BuilderHeap) (this : Nat)
    (provider : Option CredentialsProviderId) : Nat × BuilderHeap :=
  (this, updateHeap h this ((h this).withCredentialsProvider provider))

/-- Heap-level `withRequestTimeout`: mutates the object at `this` and
returns `*this`. -/
def withRequestTimeoutAt (h : BuilderHeap) (this : Nat) (request_timeout : Int) :
    Nat × BuilderHeap :=
  (this, updateHeap h this ((h this).withRequestTimeout request_timeout))

/-- Heap-level `withSsl`: mutates the object at `this` and returns
`*this`. -/
def withSslAt (h : BuilderHeap) (this : Nat) (with_ssl : Bool) : Nat × BuilderHeap :=
  (this, updateHeap h this ((h this).withSsl with_ssl))

/-- Run an interleaved sequence of setter calls, each tagged with the
address of the builder it is invoked on. -/
def runSetters (h : BuilderHeap) : List (Nat × SetterCall) → BuilderHeap
  | [] => h
  | x :: rest => runSetters (updateHeap h x.1 ((h x.1).applySetter x.2)) rest

/-- The subsequence of an interleaving addressed to one builder. -/
def projSetters (calls : List (Nat × SetterCall)) (a : Nat) : List SetterCall :=
  calls.filterMap (fun x => if x.1 = a then some x.2 else none)

lemma runSetters_proj (calls : List (Nat × SetterCall)) :
    ∀ (h : BuilderHeap) (a : Nat),
      runSetters h calls a = applySetters (h a) (projSetters calls a) := by
  induction calls with
  | nil => intro h a; rfl
  | cons x rest ih =>
    intro h a
    show runSetters (updateHeap h x.1 ((h x.1).applySetter x.2)) rest a = _
    rw [ih]
    by_cases hx : x.1 = a
    · subst hx
      simp [projSetters, updateHeap, applySetters]
    · simp [projSetters, updateHeap, hx, Ne.symm hx]

/-- Claim C8: every setter returns the very builder it was invoked on (a
reference to the same builder object), so chained setter calls all act
on one accumulator. -/
theorem setters_return_same_builder (h : BuilderHeap) (a : Nat) (e n : String)
    (p : Option CredentialsProviderId) (t : Int) (s : Bool) :
    (withEndpointsAt h a e).1 = a ∧
    (withNamespaceAt h a n).1 = a ∧
    (withCredentialsProviderAt h a p).1 = a ∧
    (withRequestTimeoutAt h a t).1 = a ∧
    (withSslAt h a s).1 = a ∧
    (withNamespaceAt (withEndpointsAt h a e).2 (withEndpointsAt h a e).1 n).2 a
      = ((h a).withEndpoints e).withNamespace n := by
  refine ⟨rfl, rfl, rfl, rfl, rfl, ?_⟩
  simp [withEndpointsAt, withNamespaceAt, updateHeap]

/-- Claim C6: two Configurations built independently from two fresh
builders by applying the identical sequence of setter calls with equal
arguments are observably equivalent: all five field values are equal,
even though the Configurations come from distinct builder instances. -/
theorem identical_sequences_equal_configurations (h : BuilderHeap) (a1 a2 : Nat)
    (calls : List (Nat × SetterCall)) (r1 r2 r3 r4 : String)
    (hne : a1 ≠ a2)
    (h1 : h a1 = Configuration.newBuilder) (h2 : h a2 = Configuration.newBuilder)
    (hproj : projSetters calls a1 = projSetters calls a2) :
    ((runSetters h calls a1).build r1 r2).1.endpoints_
      = ((runSetters h calls a2).build r3 r4).1.endpoints_ ∧
    ((runSetters h calls a1).build r1 r2).1.resource_namespace_
      = ((runSetters h calls a2).build r3 r4).1.resource_namespace_ ∧
    ((runSetters h calls a1).build r1 r2).1.credentials_provider_
      = ((runSetters h calls a2).build r3 r4).1.credentials_provider_ ∧
    ((runSetters h calls a1).build r1 r2).1.request_timeout_
      = ((runSetters h calls a2).build r3 r4).1.request_timeout_ ∧
    ((runSetters h calls a1).build r1 r2).1.tls_
      = ((runSetters h calls a2).build r3 r4).1.tls_ := by
  rw [runSetters_proj calls h a1, runSetters_proj calls h a2, h1, h2, hproj]
  exact ⟨rfl, rfl, rfl, rfl, rfl⟩

/-- Concrete interleaving applying the same setter sequence to the
builders at addresses 0 and 1. -/
def pairCalls : List (Nat × SetterCall) :=
  [(0, .withEndpoints "e"), (1, .withEndpoints "e"),
   (0, .withSsl false), (1, .withSsl false),
   (0, .withRequestTimeout 42), (1, .withRequestTimeout 42)]

/-- Witness for claim C6 at a concrete two-builder interleaving. -/
theorem identical_sequences_equal_configurations_witness :
    ((0 : Nat) ≠ 1) ∧
    projSetters pairCalls 0 = projSetters pairCalls 1 ∧
    (((runSetters (fun _ => Configuration.newBuilder) pairCalls 0).build "m1" "m2").1.endpoints_
       = ((runSetters (fun _ => Configuration.newBuilder) pairCalls 1).build "m3" "m4").1.endpoints_ ∧
     ((runSetters (fun _ => Configuration.newBuilder) pairCalls 0).build "m1" "m2").1.resource_namespace_
       = ((runSetters (fun _ => Configuration.newBuilder) pairCalls 1).build "m3" "m4").1.resource_namespace_ ∧
     ((runSetters (fun _ => Configuration.newBuilder) pairCalls 0).build "m1" "m2").1.credentials_provider_
       = ((runSetters (fun _ => Configuration.newBuilder) pairCalls 1).build "m3" "m4").1.credentials_provider_ ∧
     ((runSetters (fun _ => Configuration.newBuilder) pairCalls 0).build "m1" "m2").1.request_timeout_
       = ((runSetters (fun _ => Configuration.newBuilder) pairCalls 1).build "m3" "m4").1.request_timeout_ ∧
     ((runSetters (fun _ => Configuration.newBuilder) pairCalls 0).build "m1" "m2").1.tls_
       = ((runSetters (fun _ => Configuration.newBuilder) pairCalls 1).build "m3" "m4").1.tls_) :=
  ⟨by decide, by decide,
   identical_sequences_equal_configurations (fun _ => Configuration.newBuilder) 0 1
     pairCalls "m1" "m2" "m3" "m4" (by decide) rfl rfl (by decide)⟩

/-- One operation on a builder object: a setter call or a `build()` call
(with the moved-from string residues of that call). -/
inductive BuilderOp where
  | setter (c : SetterCall)
  | buildOp (r1 r2 : String)
deriving DecidableEq

/-- Apply one operation to one builder state; a `build()` also produces a
Configuration. -/
def ConfigurationBuilder.applyOp (b : ConfigurationBuilder) :
    BuilderOp → ConfigurationBuilder × Option Configuration
  | .setter c => (b.applySetter c, none)
  | .buildOp r1 r2 => ((b.build r1 r2).2, some (b.build r1 r2).1)

/-- Run a sequence of operations on one builder, collecting the
Configurations produced by its `build()` calls in order. -/
def runLocal (b : ConfigurationBuilder) : List BuilderOp → ConfigurationBuilder × List Configuration
  | [] => (b, [])
  | op :: rest =>
    let step := b.applyOp op
    let r := runLocal step.1 rest
    (r.1, match step.2 with | some c => c :: r.2 | none => r.2)

/-- Run an interleaved sequence of operations, each tagged with the
address of the builder object it is invoked on, collecting every
produced Configuration tagged with its builder address. -/
def runHeap (h : BuilderHeap) :
    List (Nat × BuilderOp) → BuilderHeap × List (Nat × Configuration)
  | [] => (h, [])
  | x :: rest =>
    let step := (h x.1).applyOp x.2
    let r := runHeap (updateHeap h x.1 step.1) rest
    (r.1, match step.2 with | some c => (x.1, c) :: r.2 | none => r.2)

/-- The subsequence of an interleaving of operations addressed to one
builder. -/
def projOps (ops : List (Nat × BuilderOp)) (a : Nat) : List BuilderOp :=
  ops.filterMap (fun x => if x.1 = a then some x.2 else none)

/-- The Configurations an interleaved run produced from one builder. -/
def projConfigs (outs : List (Nat × Configuration)) (a : Nat) : List Configuration :=
  outs.filterMap (fun x => if x.1 = a then some x.2 else none)

lemma runHeap_proj (ops : List (Nat × BuilderOp)) :
    ∀ (h : BuilderHeap) (a : Nat),
      (runHeap h ops).1 a = (runLocal (h a) (projOps ops a)).1 ∧
      projConfigs (runHeap h ops).2 a = (runLocal (h a) (projOps ops a)).2 := by
  induction ops with
  | nil => intro h a; exact ⟨rfl, rfl⟩
  | cons x rest ih =>
    intro h a
    by_cases hx : x.1 = a
    · subst hx
      have hu : updateHeap h x.1 ((h x.1).applyOp x.2).1 x.1 = ((h x.1).applyOp x.2).1 := by
        simp [updateHeap]
      constructor
      · show (runHeap (updateHeap h x.1 ((h x.1).applyOp x.2).1) rest).1 x.1 = _
        rw [(ih _ x.1).1, hu]
        simp [projOps, runLocal]
      · show projConfigs
          (match ((h x.1).applyOp x.2).2 with
           | some c => (x.1, c) :: (runHeap (updateHeap h x.1 ((h x.1).applyOp x.2).1) rest).2
           | none => (runHeap (updateHeap h x.1 ((h x.1).applyOp x.2).1) rest).2) x.1 = _
        cases hop : ((h x.1).applyOp x.2).2 with
        | some c =>
          simp only [projConfigs, List.filterMap_cons, if_pos rfl]
          rw [show List.filterMap
                (fun y => if y.1 = x.1 then some y.2 else none)
                (runHeap (updateHeap h x.1 ((h x.1).applyOp x.2).1) rest).2
              = projConfigs (runHeap (updateHeap h x.1 ((h x.1).applyOp x.2).1) rest).2 x.1
              from rfl]
          rw [(ih _ x.1).2, hu]
          simp [projOps, runLocal, hop]
        | none =>
          rw [show projConfigs (runHeap (updateHeap h x.1 ((h x.1).applyOp x.2).1) rest).2 x.1
              = (runLocal (updateHeap h x.1 ((h x.1).applyOp x.2).1 x.1) (projOps rest x.1)).2
              from (ih _ x.1).2]
          rw [hu]
          simp [projOps, runLocal, hop]
    · have hu : updateHeap h x.1 ((h x.1).applyOp x.2).1 a = h a := by
        simp [updateHeap, Ne.symm hx]
      have hp : projOps (x :: rest) a = projOps rest a := by
        simp [projOps, hx]
      constructor
      · show (runHeap (updateHeap h x.1 ((h x.1).applyOp x.2).1) rest).1 a = _
        rw [(ih _ a).1, hu, hp]
      · show projConfigs
          (match ((h x.1).applyOp x.2).2 with
           | some c => (x.1, c) :: (runHeap (updateHeap h x.1 ((h x.1).applyOp x.2).1) rest).2
           | none => (runHeap (updateHeap h x.1 ((h x.1).applyOp x.2).1) rest).2) a = _
        cases hop : ((h x.1).applyOp x.2).2 with
        | some c =>
          simp only [projConfigs, List.filterMap_cons, if_neg hx]
          rw [show List.filterMap
                (fun y => if y.1 = a then some y.2 else none)
                (runHeap (updateHeap h x.1 ((h x.1).applyOp x.2).1) rest).2
              = projConfigs (runHeap (updateHeap h x.1 ((h x.1).applyOp x.2).1) rest).2 a
              from rfl]
          rw [(ih _ a).2, hu, hp]
        | none =>
          rw [show projConfigs (runHeap (updateHeap h x.1 ((h x.1).applyOp x.2).1) rest).2 a
              = (runLocal (updateHeap h x.1 ((h x.1).applyOp x.2).1 a) (projOps rest a)).2
              from (ih _ a).2]
          rw [hu, hp]

/-- Claim C7: two builder objects obtained from separate `newBuilder()`
calls share no state: for every interleaving of setter calls and
`build()` calls on the two builders, the Configurations produced from
each builder are exactly those produced by running only its own
operations on a fresh builder, with no cross-contamination. -/
theorem independent_builders_no_cross_contamination (h : BuilderHeap) (a1 a2 : Nat)
    (ops : List (Nat × BuilderOp))
    (hne : a1 ≠ a2)
    (h1 : h a1 = Configuration.newBuilder) (h2 : h a2 = Configuration.newBuilder) :
    projConfigs (runHeap h ops).2 a1
      = (runLocal Configuration.newBuilder (projOps ops a1)).2 ∧
    projConfigs (runHeap h ops).2 a2
      = (runLocal Configuration.newBuilder (projOps ops a2)).2 := by
  constructor
  · rw [(runHeap_proj ops h a1).2, h1]
  · rw [(runHeap_proj ops h a2).2, h2]

/-- Concrete interleaving of setter calls and builds on the builders at
addresses 0 and 1. -/
def mixedOps : List (Nat × BuilderOp) :=
  [(0, .setter (.withEndpoints "left")), (1, .setter (.withEndpoints "right")),
   (1, .setter (.withSsl false)), (0, .buildOp "u" "v"), (1, .buildOp "w" "z")]

/-- Witness for claim C7 at a concrete interleaving with builds. -/
theorem independent_builders_no_cross_contamination_witness :
    ((0 : Nat) ≠ 1) ∧
    (projConfigs (runHeap (fun _ => Configuration.newBuilder) mixedOps).2 0
       = (runLocal Configuration.newBuilder (projOps mixedOps 0)).2 ∧
     projConfigs (runHeap (fun _ => Configuration.newBuilder) mixedOps).2 1
       = (runLocal Configuration.newBuilder (projOps mixedOps 1)).2) :=
  ⟨by decide,
   independent_builders_no_cross_contamination (fun _ => Configuration.newBuilder) 0 1
     mixedOps (by decide) rfl rfl⟩
